import Mathlib

/-!
Shallow embedding of the meetIQ v2 orchestration core.

The definitions below are translated from the Python sources of the
repository (`meetIQ-backend`).  External effects (Redis, object storage,
the Gemini "Enrichment Oracle") are made explicit: the coordination
store becomes explicit state records, and every fallible external call
becomes an `Except String`-valued parameter holding that call's outcome.
-/

namespace MeetIQ

/-! ## Chunk intake (`services/audio_service.py`, `process_chunk_background`)

Per `(client_id, meeting_id)` coordination state: the Redis set
`v2:meeting:..:uploaded` of received chunk ids, together with the number
of times the intake has enqueued `dispatch_processing_task_v2`.
Chunk ids are Python ints, so they are modelled as `Int`. -/

structure IntakeState where
  uploaded : Finset Int
  dispatchCount : Nat
deriving DecidableEq

/-- `process_chunk_background` (audio_service.py, lines 109-145), restricted
to its coordination-store effect: `SADD uploaded chunk_id`, read the set
back, and if its cardinality equals `total_chunks` enqueue one
`dispatch_processing_task_v2` job (the enqueue carries no idempotency
job id).  The completion check runs on every delivery. -/
def process_chunk_background (total_chunks : Nat) (chunk_id : Int)
    (s : IntakeState) : IntakeState :=
  if (insert chunk_id s.uploaded).card = total_chunks then
    { uploaded := insert chunk_id s.uploaded, dispatchCount := s.dispatchCount + 1 }
  else
    { uploaded := insert chunk_id s.uploaded, dispatchCount := s.dispatchCount }

/-- Fresh coordination state for a session: empty uploaded set, no dispatch
enqueued yet. -/
def initialIntake : IntakeState := ⟨∅, 0⟩

/-- Deliver a list of chunk ids, in order, through
`process_chunk_background`, starting from `s`. -/
def deliverFrom (total_chunks : Nat) (l : List Int) (s : IntakeState) : IntakeState :=
  l.foldl (fun t c => process_chunk_background total_chunks c t) s

/-- Deliver a list of chunk ids in order, starting from a fresh session. -/
def deliverAll (total_chunks : Nat) (l : List Int) : IntakeState :=
  deliverFrom total_chunks l initialIntake

theorem deliverFrom_cons (N : Nat) (c : Int) (l : List Int) (s : IntakeState) :
    deliverFrom N (c :: l) s = deliverFrom N l (process_chunk_background N c s) := rfl

theorem deliverFrom_nil (N : Nat) (s : IntakeState) : deliverFrom N [] s = s := rfl

/-- The uploaded set after a run of deliveries is the union of the starting
set with the delivered ids (set-insert semantics of `SADD`). -/
theorem deliverFrom_uploaded (N : Nat) (l : List Int) (s : IntakeState) :
    (deliverFrom N l s).uploaded = s.uploaded ∪ l.toFinset := by
  induction l generalizing s with
  | nil => simp [deliverFrom_nil]
  | cons c t ih =>
      rw [deliverFrom_cons, ih]
      unfold process_chunk_background
      split <;> simp [Finset.insert_union]

/-- Core counting lemma: delivering pairwise-distinct, fresh chunk ids that
exactly fill the expected set fires the dispatch exactly once, on the
delivery that makes the cardinality reach `N`. -/
theorem deliverFrom_complete (N : Nat) (l : List Int) (s : IntakeState)
    (hnd : l.Nodup) (hfresh : ∀ x ∈ l, x ∉ s.uploaded)
    (hcard : s.uploaded.card + l.length = N)
    (hlt : s.uploaded.card < N) (hd : s.dispatchCount = 0) :
    (deliverFrom N l s).dispatchCount = 1 ∧ (deliverFrom N l s).uploaded.card = N := by
  induction l generalizing s with
  | nil =>
      exact absurd hcard (by simpa using Nat.ne_of_lt hlt)
  | cons c t ih =>
      have hc : c ∉ s.uploaded := hfresh c (by simp)
      have hcardc : (insert c s.uploaded).card = s.uploaded.card + 1 :=
        Finset.card_insert_of_not_mem hc
      have hlen : (c :: t).length = t.length + 1 := rfl
      rw [deliverFrom_cons]
      unfold process_chunk_background
      by_cases hfin : (insert c s.uploaded).card = N
      · -- this delivery completes the set: the tail must be empty
        have ht' : t = [] := List.length_eq_zero.mp (by omega)
        subst ht'
        simp only [hfin, if_pos]
        exact ⟨by simp [deliverFrom_nil, hd], by simp [deliverFrom_nil, hfin]⟩
      · simp only [hfin, if_neg, not_false_iff]
        refine ih { uploaded := insert c s.uploaded, dispatchCount := s.dispatchCount }
          hnd.of_cons ?_ ?_ ?_ hd
        · intro x hx
          simp only [Finset.mem_insert, not_or]
          refine ⟨?_, hfresh x (List.mem_cons_of_mem c hx)⟩
          intro hxc
          exact (List.nodup_cons.mp hnd).1 (hxc ▸ hx)
        · simp only [hcardc]
          omega
        · simp only [hcardc]
          omega

/-- C2: for every `totalExpected = N` and every permutation of the
distinct chunk indices `0..N-1`, delivering each index exactly once
triggers the dispatch of the processing pipeline exactly once,
regardless of arrival order. -/
theorem dispatch_fires_exactly_once_any_order (N : Nat) (l : List Int)
    (hN : 0 < N) (hperm : l.Perm ((List.range N).map Int.ofNat)) :
    (deliverAll N l).dispatchCount = 1 := by
  have hnd : l.Nodup := by
    refine hperm.nodup_iff.mpr ?_
    exact (List.nodup_range N).map (fun a b h => Int.ofNat.inj h)
  have hlen : l.length = N := by
    simpa using hperm.length_eq
  exact (deliverFrom_complete N l initialIntake hnd (by simp [initialIntake])
    (by simp [initialIntake, hlen]) (by simpa [initialIntake] using hN) rfl).1

theorem dispatch_fires_exactly_once_any_order_witness :
    (deliverAll 3 [2, 0, 1]).dispatchCount = 1 :=
  dispatch_fires_exactly_once_any_order 3 [2, 0, 1] (by decide) (by decide)

/-- C3 counterexample: with `totalExpected = 2`, delivering chunk ids
`0, 1` and then re-delivering the final id `1` (after the uploaded set
already has cardinality 2) enqueues a second dispatch: the dispatch
count reaches 2, refuting "never causes a second dispatch". -/
theorem redelivered_final_chunk_causes_second_dispatch :
    (deliverAll 2 [0, 1, 1]).dispatchCount = 2 := by decide

/-- C3 amended: re-delivering an already-received chunk id to a complete
session leaves the uploaded set unchanged (set-insert is idempotent, so
the index is never double-counted), but the completion check re-fires
and intake enqueues one more dispatch of the processing pipeline. -/
theorem redelivery_leaves_set_but_enqueues_again (N : Nat) (c : Int)
    (s : IntakeState) (hmem : c ∈ s.uploaded) (hcard : s.uploaded.card = N) :
    process_chunk_background N c s =
      { uploaded := s.uploaded, dispatchCount := s.dispatchCount + 1 } := by
  unfold process_chunk_background
  rw [Finset.insert_eq_self.mpr hmem]
  simp [hcard]

theorem redelivery_leaves_set_but_enqueues_again_witness :
    process_chunk_background 2 1 (deliverAll 2 [0, 1]) =
      { uploaded := (deliverAll 2 [0, 1]).uploaded,
        dispatchCount := (deliverAll 2 [0, 1]).dispatchCount + 1 } :=
  redelivery_leaves_set_but_enqueues_again 2 1 (deliverAll 2 [0, 1])
    (by decide) (by decide)

/-- C7 counterexample: intake performs no range validation on chunk ids
(`upload_chunk_v2` and `process_chunk_background` never compare
`chunk_id` against `[0, total_chunks)`), so delivering the out-of-range
id 5 to a session with `totalExpected = 2` drives the uploaded set's
cardinality to 3, above `totalExpected`. -/
theorem uploadset_card_can_exceed_total :
    2 < (deliverAll 2 [0, 1, 5]).uploaded.card := by decide

/-- C7 amended: when every delivered chunk id does lie in
`[0, totalExpected)`, the uploaded set's cardinality never exceeds
`totalExpected`; the in-range condition is a caller obligation, not
checked by intake. -/
theorem uploadset_card_bounded_when_in_range (N : Nat) (l : List Int)
    (hrange : ∀ x ∈ l, 0 ≤ x ∧ x < (N : Int)) :
    (deliverAll N l).uploaded.card ≤ N := by
  have h1 : (deliverAll N l).uploaded = l.toFinset := by
    simpa [initialIntake] using deliverFrom_uploaded N l initialIntake
  rw [h1]
  have hsub : l.toFinset ⊆ Finset.Ico (0 : Int) N := by
    intro x hx
    rcases hrange x (List.mem_toFinset.mp hx) with ⟨h0, hN⟩
    exact Finset.mem_Ico.mpr ⟨h0, hN⟩
  calc l.toFinset.card ≤ (Finset.Ico (0 : Int) (N : Int)).card :=
        Finset.card_le_card hsub
    _ = N := by rw [Int.card_Ico]; omega

theorem uploadset_card_bounded_when_in_range_witness :
    (deliverAll 2 [1, 0]).uploaded.card ≤ 2 :=
  uploadset_card_bounded_when_in_range 2 [1, 0] (by decide)

/-! ## Chunk enrichment worker (`v2/worker.py`, `transcribe_chunk_task_v2`)

After transcribing and persisting chunk `chunk_id`, the worker runs
`count = INCR processed`; when the post-increment value equals
`total_chunks` it enqueues `merge_and_summarize_task_v2` under the fixed
arq job id `v2-merge-{client_id}-{meeting_id}`.  The state records the
counter and the multiset (list) of merge-job ids submitted so far. -/

/-- The deterministic merge job identity from worker.py line 153. -/
def mergeJobId (client_id meeting_id : String) : String :=
  "v2-merge-" ++ client_id ++ "-" ++ meeting_id

structure ChunkWorkerState where
  processed : Nat
  mergeJobs : List String
deriving DecidableEq, Repr

/-- Coordination-store effect of `transcribe_chunk_task_v2` (worker.py,
lines 145-161) on a successful transcription: atomically increment the
processed counter and, exactly when the post-increment value equals
`total_chunks`, enqueue one merge job under `mergeJobId`. -/
def transcribe_chunk_task_v2 (client_id meeting_id : String)
    (total_chunks : Nat) (s : ChunkWorkerState) : ChunkWorkerState :=
  if s.processed + 1 = total_chunks then
    { processed := s.processed + 1,
      mergeJobs := s.mergeJobs ++ [mergeJobId client_id meeting_id] }
  else
    { processed := s.processed + 1, mergeJobs := s.mergeJobs }

/-- `k` successful chunk-worker completions after the dispatcher reset
the processed counter to 0 (worker.py line 48). -/
def runChunkWorkers (client_id meeting_id : String) (total_chunks : Nat) :
    Nat → ChunkWorkerState
  | 0 => ⟨0, []⟩
  | k + 1 => transcribe_chunk_task_v2 client_id meeting_id total_chunks
      (runChunkWorkers client_id meeting_id total_chunks k)

theorem runChunkWorkers_processed (c m : String) (N k : Nat) :
    (runChunkWorkers c m N k).processed = k := by
  induction k with
  | zero => rfl
  | succ k ih =>
      unfold runChunkWorkers transcribe_chunk_task_v2
      split <;> simp [ih]

/-- C1: across any number `k` of successful worker completions in a
generation, the merge job is submitted exactly once — on the completion
whose post-increment hits `total_chunks` — and every submission carries
the deterministic key `v2-merge-{client_id}-{meeting_id}`; no submission
uses a random token, so duplicate threshold observations collapse under
the same key. -/
theorem merge_enqueued_once_under_deterministic_key (c m : String) (N k : Nat) :
    (runChunkWorkers c m N k).mergeJobs =
      (if 0 < N ∧ N ≤ k then [mergeJobId c m] else []) ∧
    mergeJobId c m = "v2-merge-" ++ c ++ "-" ++ m := by
  refine ⟨?_, rfl⟩
  induction k with
  | zero =>
      have h : ¬ (0 < N ∧ N ≤ 0) := by omega
      simp [runChunkWorkers, h]
      omega
  | succ k ih =>
      unfold runChunkWorkers transcribe_chunk_task_v2
      rw [runChunkWorkers_processed c m N k]
      by_cases h : k + 1 = N
      · have hnot : ¬ (0 < N ∧ N ≤ k) := by omega
        have hyes : 0 < N ∧ N ≤ k + 1 := by omega
        rw [if_pos h]
        simp [ih, hnot, hyes]
        omega
      · rw [if_neg h]
        by_cases h2 : 0 < N ∧ N ≤ k
        · have h3 : 0 < N ∧ N ≤ k + 1 := ⟨h2.1, Nat.le_succ_of_le h2.2⟩
          simp [ih, h2, h3]
        · have h3 : ¬ (0 < N ∧ N ≤ k + 1) := by omega
          simp [ih, h2, h3]

/-! ## Data model (`v2/models/schemas.py`)

Pydantic `Literal` enum fields become `String` fields whose membership in
the enum is enforced by the validation/sanitization functions, exactly as
the adapters do.  `Dict` fields become association lists. -/

structure MeetingEvent where
  meeting_id : String
  client_id : String
  timestamp : Nat
  audio_chunks_ref : List String
  transcript : String
  speaker_map : List (String × String)
deriving DecidableEq, Repr

structure MeetingInsight where
  meeting_id : String
  is_financial_meeting : Bool
  financial_products : List String
  client_intent : String
  meeting_summary : List String
  action_items : List String
  follow_ups : List String
  follow_up_date : Option String
  confidence_level : String
deriving DecidableEq, Repr

structure FinancialGoal where
  name : String
  status : String
deriving DecidableEq, Repr

/-- `ClientMemory` (schemas.py lines 31-55).  Field defaults mirror the
pydantic `default` / `default_factory` declarations.  Note the schema
declares no `client_overview` field. -/
structure ClientMemory where
  client_id : String
  profile : List (String × String) := []
  risk_profile : Option String := none
  preferred_products : List String := []
  disfavored_products : List String := []
  active_financial_goals : List FinancialGoal := []
  discussed_products : List (String × Nat) := []
  objections_history : List String := []
  decision_confidence_trend : String := "stable"
  engagement_level : String := "medium"
  pending_action_items : List String := []
  last_follow_up_date : Option String := none
  last_updated_from_meeting_id : Option String := none
  memory_confidence : String := "medium"
deriving DecidableEq, Repr

/-- `ClientMemory(client_id=client_id)`: the lazily created all-default
memory returned by `StorageService.load_client_memory` when no record
exists. -/
def defaultClientMemory (client_id : String) : ClientMemory :=
  { client_id := client_id }

/-! ## Per-chunk transcripts and the merged text (`v2/worker.py`) -/

/-- One entry of a chunk transcript's `segments` array.  The JSON keys may
be absent, hence `Option`; `merge_and_summarize_task_v2` reads them with
`seg.get` defaults. -/
structure Segment where
  timestamp : Option String
  speaker : Option String
  content : Option String
deriving DecidableEq, Repr

/-- A parsed `chunk_{i}.json` file; the `segments` key may be missing. -/
structure ChunkTranscript where
  segments : Option (List Segment)
deriving DecidableEq, Repr

/-- The merged-transcript line for one segment (worker.py lines 210-213):
`[{timestamp}] {speaker}: {content}` with the dict-get defaults. -/
def formatSegment (seg : Segment) : String :=
  "[" ++ seg.timestamp.getD "" ++ "] " ++ seg.speaker.getD "Unknown" ++
    ": " ++ seg.content.getD ""

/-- The segment-collection loop of `merge_and_summarize_task_v2`
(worker.py lines 181-207, local-storage branch): for each index in
`range total_chunks`, if the chunk transcript file exists and has a
`segments` key, extend `all_segments` with it; a missing file or key is
skipped, never fatal. -/
def collectSegments (chunks : Nat → Option ChunkTranscript)
    (total_chunks : Nat) : List Segment :=
  (List.range total_chunks).foldl
    (fun all_segments i =>
      match chunks i with
      | some chunk_data =>
          match chunk_data.segments with
          | some segs => all_segments ++ segs
          | none => all_segments
      | none => all_segments)
    []

/-- `audio_chunks_ref` built by the same loop (local-storage branch). -/
def audioChunksRef (total_chunks : Nat) : List String :=
  (List.range total_chunks).map (fun i => "chunk_" ++ toString i ++ ".aac")

/-- `merged_text = "\n".join(formatted segments)` (worker.py line 210). -/
def mergedText (chunks : Nat → Option ChunkTranscript)
    (total_chunks : Nat) : String :=
  String.intercalate "\n" ((collectSegments chunks total_chunks).map formatSegment)

/-! ## Meeting agent (`v2/agents/meeting_agent.py`) -/

/-- Raw session-level Oracle JSON before pydantic validation: every
`MeetingInsight` key may be absent.  `follow_up_date` distinguishes an
absent key (`none`) from a present `null` (`some none`). -/
structure InsightData where
  meeting_id : Option String
  is_financial_meeting : Option Bool
  financial_products : Option (List String)
  client_intent : Option String
  meeting_summary : Option (List String)
  action_items : Option (List String)
  follow_ups : Option (List String)
  follow_up_date : Option (Option String)
  confidence_level : Option String
deriving DecidableEq, Repr

def confidenceLevels : List String := ["high", "medium", "low"]

/-- `MeetingInsight(**data)`: every field of the schema is required (none
has a default), and `confidence_level` is a `Literal`; a missing key or
an out-of-enum confidence raises a pydantic `ValidationError`. -/
def validateMeetingInsight (d : InsightData) : Except String MeetingInsight :=
  match d.meeting_id, d.is_financial_meeting, d.financial_products,
        d.client_intent, d.meeting_summary, d.action_items, d.follow_ups,
        d.follow_up_date, d.confidence_level with
  | some mid, some fin, some prods, some intent, some summary, some items,
    some fups, some fdate, some conf =>
      if conf ∈ confidenceLevels then
        Except.ok ⟨mid, fin, prods, intent, summary, items, fups, fdate, conf⟩
      else
        Except.error "ValidationError: confidence_level"
  | _, _, _, _, _, _, _, _, _ => Except.error "ValidationError: missing field"

/-- Python `str.strip()`: remove leading and trailing whitespace.
Defined structurally over the character list so that it reduces in the
kernel (`String.trim` is defined by well-founded recursion and does
not). -/
def pyStrip (s : String) : String :=
  String.mk (((s.data.dropWhile Char.isWhitespace).reverse.dropWhile
    Char.isWhitespace).reverse)

instance instDecidableEqExcept {ε α : Type} [DecidableEq ε] [DecidableEq α] :
    DecidableEq (Except ε α)
  | Except.error a, Except.error b =>
      if h : a = b then isTrue (by rw [h])
      else isFalse (by intro hc; injection hc; contradiction)
  | Except.error _, Except.ok _ => isFalse (by intro hc; cases hc)
  | Except.ok _, Except.error _ => isFalse (by intro hc; cases hc)
  | Except.ok a, Except.ok b =>
      if h : a = b then isTrue (by rw [h])
      else isFalse (by intro hc; injection hc; contradiction)

namespace MeetingAgent

/-- `MeetingAgent._empty_insight` (meeting_agent.py lines 20-31). -/
def empty_insight (meeting_id : String) : MeetingInsight :=
  { meeting_id := meeting_id, is_financial_meeting := false,
    financial_products := [], client_intent := "", meeting_summary := [],
    action_items := [], follow_ups := [], follow_up_date := none,
    confidence_level := "low" }

/-- `MeetingAgent.analyze` (meeting_agent.py lines 33-75).  `hasClient`
is the truthiness of the configured API key; `oracle` is the outcome of
the Gemini call followed by `json.loads`.  A blank transcript or a
missing client yields the empty insight; otherwise a failed call or a
validation failure is re-raised. -/
def analyze (hasClient : Bool) (oracle : Except String InsightData)
    (transcript : String) (meeting_id : String) : Except String MeetingInsight :=
  if hasClient = false ∨ transcript = "" ∨ pyStrip transcript = "" then
    Except.ok (empty_insight meeting_id)
  else
    match oracle with
    | Except.ok data => validateMeetingInsight data
    | Except.error e => Except.error e

end MeetingAgent

/-! ## Memory agent (`v2/agents/memory_agent.py`) -/

/-- The value found under `risk_profile` in the Oracle response: JSON
null, a string, or an object (string-valued, as produced for this key). -/
inductive RiskValue where
  | null : RiskValue
  | str : String → RiskValue
  | dict : List (String × String) → RiskValue
deriving DecidableEq, Repr

/-- Raw response JSON for the updated `ClientMemory`; every key may be
absent.  Keys whose schema type is `Optional` distinguish an absent key
(`none`) from a present `null` (`some none`). -/
structure MemoryData where
  client_id : Option String
  profile : Option (List (String × Option String))
  risk_profile : Option RiskValue
  preferred_products : Option (List String)
  disfavored_products : Option (List String)
  active_financial_goals : Option (List FinancialGoal)
  discussed_products : Option (List (String × Nat))
  objections_history : Option (List String)
  decision_confidence_trend : Option String
  engagement_level : Option String
  pending_action_items : Option (List String)
  last_follow_up_date : Option (Option String)
  last_updated_from_meeting_id : Option (Option String)
  memory_confidence : Option String
  client_overview : Option (Option String)
deriving DecidableEq, Repr

def validTrends : List String := ["increasing", "stable", "decreasing"]

def validEngagement : List String := ["high", "medium", "low"]

def validConfidence : List String := ["high", "medium", "low"]

/-- Sanitization of `decision_confidence_trend` (memory_agent.py lines
73-82): values in the enum pass through; `positive` and `negative` are
mapped to `increasing` and `decreasing`; anything else (including an
absent key) falls back to `stable`. -/
def sanitizeTrend (trend : Option String) : String :=
  match trend with
  | some t =>
      if t ∈ validTrends then t
      else if t = "positive" then "increasing"
      else if t = "negative" then "decreasing"
      else "stable"
  | none => "stable"

/-- Sanitization of `engagement_level` (memory_agent.py lines 84-88). -/
def sanitizeEngagement (e : Option String) : String :=
  match e with
  | some v => if v ∈ validEngagement then v else "medium"
  | none => "medium"

/-- Sanitization of `memory_confidence` (memory_agent.py lines 90-94). -/
def sanitizeMemoryConfidence (c : Option String) : String :=
  match c with
  | some v => if v ∈ validConfidence then v else "medium"
  | none => "medium"

/-- A single quote character, for rendering Python `str(dict)`. -/
def pyQuote : String := (Char.ofNat 39).toString

/-- Python `str` of a string-valued dict, as stored by the
`risk_aversion` branch (memory_agent.py line 108). -/
def pyStrDict (fields : List (String × String)) : String :=
  "\x7b" ++ String.intercalate ", "
    (fields.map (fun kv => pyQuote ++ kv.1 ++ pyQuote ++ ": " ++
      pyQuote ++ kv.2 ++ pyQuote)) ++ "\x7d"

/-- `json.dumps` of a string-valued dict (memory_agent.py line 110). -/
def jsonDumpsDict (fields : List (String × String)) : String :=
  "\x7b" ++ String.intercalate ", "
    (fields.map (fun kv => "\"" ++ kv.1 ++ "\": \"" ++ kv.2 ++ "\"")) ++ "\x7d"

/-- The `risk_profile` fix-up (memory_agent.py lines 104-110): a dict is
flattened to `str(dict)` when it has a `risk_aversion` key, otherwise to
`json.dumps(dict)`; strings and null pass through. -/
def fixRiskProfile : Option RiskValue → Option String
  | none => none
  | some RiskValue.null => none
  | some (RiskValue.str v) => some v
  | some (RiskValue.dict fields) =>
      some (if fields.any (fun kv => kv.1 = "risk_aversion")
        then pyStrDict fields else jsonDumpsDict fields)

namespace MemoryAgent

/-- `MemoryAgent.update_memory` (memory_agent.py lines 19-119).

The Gemini call and `json.loads` become the `oracle` parameter.  The
sanitization of the three enum fields, the profile stringification, the
`client_overview` preservation and the `risk_profile` fix-up are
translated line by line.  Because `ClientMemory` (schemas.py) declares
no `client_overview` field, the preservation branch's read of
`current_memory.client_overview` raises an `AttributeError`, which the
surrounding `except` re-raises; a missing `client_id` key makes
`ClientMemory(**data)` raise a `ValidationError` (the commented-out
safety line 113 does not restore it).  The extra `client_overview` key
itself is ignored by the pydantic constructor. -/
def update_memory (hasClient : Bool) (current_memory : ClientMemory)
    (meeting_insight : MeetingInsight) (oracle : Except String MemoryData) :
    Except String ClientMemory :=
  if hasClient = false then
    Except.ok current_memory
  else
    match oracle with
    | Except.error e => Except.error e
    | Except.ok data =>
        match data.client_overview with
        | some (some _) =>
            match data.client_id with
            | none => Except.error "ValidationError: client_id field required"
            | some cid =>
                Except.ok
                  { client_id := cid,
                    profile := (data.profile.map
                      (List.map (fun kv => (kv.1, kv.2.getD "")))).getD [],
                    risk_profile := fixRiskProfile data.risk_profile,
                    preferred_products := data.preferred_products.getD [],
                    disfavored_products := data.disfavored_products.getD [],
                    active_financial_goals := data.active_financial_goals.getD [],
                    discussed_products := data.discussed_products.getD [],
                    objections_history := data.objections_history.getD [],
                    decision_confidence_trend :=
                      sanitizeTrend data.decision_confidence_trend,
                    engagement_level := sanitizeEngagement data.engagement_level,
                    pending_action_items := data.pending_action_items.getD [],
                    last_follow_up_date := data.last_follow_up_date.getD none,
                    last_updated_from_meeting_id :=
                      data.last_updated_from_meeting_id.getD none,
                    memory_confidence :=
                      sanitizeMemoryConfidence data.memory_confidence }
        | _ =>
            Except.error "AttributeError: ClientMemory has no field client_overview"

end MemoryAgent

/-! ## Merge & three-layer writer (`v2/worker.py`, `merge_and_summarize_task_v2`) -/

/-- Durable records written by one merge run (StorageService writes).
`none` means the run has not (yet) written that record. -/
structure DurableStore where
  rawEvent : Option MeetingEvent := none
  meetingInsightFile : Option MeetingInsight := none
  clientMemoryFile : Option ClientMemory := none
deriving DecidableEq, Repr

/-- The poll-facing Redis keys written by one merge run:
`..:result`, `..:segments` and `..:error`. -/
structure MergePublish where
  resultKey : Option MeetingInsight := none
  segmentsKey : Option (List Segment) := none
  errorKey : Option String := none
deriving DecidableEq, Repr

/-- `merge_and_summarize_task_v2` (worker.py lines 171-298).

External effects are explicit parameters: `chunks` gives the per-index
transcript files on disk, `hasClient` the truthiness of the API key,
`insightOracle` / `memoryOracle` the outcomes of the two Oracle calls,
the `saveXRes` / `loadMemoryRes` parameters the outcomes of the
storage operations, and `overviewRes` the outcome of
`ClientOverviewAgent.generate_overview`; `now` abstracts
`datetime.now()`.  The Redis `set` calls themselves are modelled as
always succeeding.  Any exception escaping the main body is caught,
published under the error key, then re-raised (lines 289-298).  The
client-overview block (lines 242-273) swallows its own failures; on a
successful generation the subsequent `updated_memory.client_overview`
assignment raises inside the same `try` (the `ClientMemory` schema
declares no such field), so in both cases the memory saved by the
reducer step is what remains persisted. -/
def merge_and_summarize_task_v2
    (client_id meeting_id : String) (total_chunks : Nat) (now : Nat)
    (chunks : Nat → Option ChunkTranscript)
    (hasClient : Bool)
    (insightOracle : Except String InsightData)
    (memoryOracle : Except String MemoryData)
    (saveEventRes saveInsightRes saveMemoryRes : Except String Unit)
    (loadMemoryRes : Except String ClientMemory)
    (overviewRes : Except String String) :
    MergePublish × DurableStore × Except String MeetingInsight :=
  let all_segments := collectSegments chunks total_chunks
  let merged_text := String.intercalate "\n" (all_segments.map formatSegment)
  let event : MeetingEvent :=
    { meeting_id := meeting_id, client_id := client_id, timestamp := now,
      audio_chunks_ref := audioChunksRef total_chunks,
      transcript := merged_text, speaker_map := [] }
  match saveEventRes with
  | Except.error e => (⟨none, none, some e⟩, ⟨none, none, none⟩, Except.error e)
  | Except.ok _ =>
    match MeetingAgent.analyze hasClient insightOracle merged_text meeting_id with
    | Except.error e =>
        (⟨none, none, some e⟩, ⟨some event, none, none⟩, Except.error e)
    | Except.ok insight =>
      match saveInsightRes with
      | Except.error e =>
          (⟨none, none, some e⟩, ⟨some event, none, none⟩, Except.error e)
      | Except.ok _ =>
        match loadMemoryRes with
        | Except.error e =>
            (⟨none, none, some e⟩, ⟨some event, some insight, none⟩, Except.error e)
        | Except.ok current_memory =>
          match MemoryAgent.update_memory hasClient current_memory insight
              memoryOracle with
          | Except.error e =>
              (⟨none, none, some e⟩, ⟨some event, some insight, none⟩,
               Except.error e)
          | Except.ok updated0 =>
            let updated_memory :=
              { updated0 with last_updated_from_meeting_id := some meeting_id }
            match saveMemoryRes with
            | Except.error e =>
                (⟨none, none, some e⟩, ⟨some event, some insight, none⟩,
                 Except.error e)
            | Except.ok _ =>
              match overviewRes with
              | Except.ok _ =>
                  (⟨some insight, some all_segments, none⟩,
                   ⟨some event, some insight, some updated_memory⟩,
                   Except.ok insight)
              | Except.error _ =>
                  (⟨some insight, some all_segments, none⟩,
                   ⟨some event, some insight, some updated_memory⟩,
                   Except.ok insight)

/-- Description of the merged content taken from the spec's words
(§4.4/§8): the segments of exactly the present chunk indices,
concatenated in increasing index order (absent indices contribute
nothing). -/
def mergedSegmentsSpec (chunks : Nat → Option ChunkTranscript)
    (total_chunks : Nat) : List Segment :=
  ((List.range total_chunks).map (fun i =>
      match chunks i with
      | some chunk_data => chunk_data.segments.getD []
      | none => [])).flatten

theorem collect_go (chunks : Nat → Option ChunkTranscript) (l : List Nat)
    (acc : List Segment) :
    l.foldl
      (fun all_segments i =>
        match chunks i with
        | some chunk_data =>
            match chunk_data.segments with
            | some segs => all_segments ++ segs
            | none => all_segments
        | none => all_segments) acc
    = acc ++ (l.map (fun i =>
        match chunks i with
        | some chunk_data => chunk_data.segments.getD []
        | none => [])).flatten := by
  induction l generalizing acc with
  | nil => simp
  | cons x t ih =>
      simp only [List.foldl_cons, List.map_cons, List.flatten_cons]
      rw [ih]
      cases chunks x with
      | none => simp
      | some cd =>
          obtain ⟨segs⟩ := cd
          cases segs <;> simp

/-- The collection loop computes exactly the spec-side description. -/
theorem collectSegments_eq_spec (chunks : Nat → Option ChunkTranscript)
    (total_chunks : Nat) :
    collectSegments chunks total_chunks = mergedSegmentsSpec chunks total_chunks := by
  unfold collectSegments mergedSegmentsSpec
  rw [collect_go]
  simp

/-- C5: a merge whose downstream steps succeed completes without error
even when per-chunk results are missing, and the persisted Event's
merged transcript is built from the segments of exactly the present
indices, concatenated in increasing index order. -/
theorem merge_skips_missing_chunks
    (client_id meeting_id : String) (total_chunks now : Nat)
    (chunks : Nat → Option ChunkTranscript) (hasClient : Bool)
    (insightOracle : Except String InsightData)
    (memoryOracle : Except String MemoryData)
    (loadMemoryRes : Except String ClientMemory)
    (overviewRes : Except String String)
    (insight : MeetingInsight) (current_memory updated0 : ClientMemory)
    (hA : MeetingAgent.analyze hasClient insightOracle
      (mergedText chunks total_chunks) meeting_id = Except.ok insight)
    (hL : loadMemoryRes = Except.ok current_memory)
    (hU : MemoryAgent.update_memory hasClient current_memory insight
      memoryOracle = Except.ok updated0) :
    merge_and_summarize_task_v2 client_id meeting_id total_chunks now chunks
      hasClient insightOracle memoryOracle (Except.ok ()) (Except.ok ())
      (Except.ok ()) loadMemoryRes overviewRes =
    (⟨some insight, some (mergedSegmentsSpec chunks total_chunks), none⟩,
     ⟨some { meeting_id := meeting_id, client_id := client_id,
             timestamp := now,
             audio_chunks_ref := audioChunksRef total_chunks,
             transcript := String.intercalate "\n"
               ((mergedSegmentsSpec chunks total_chunks).map formatSegment),
             speaker_map := [] },
       some insight,
       some { updated0 with last_updated_from_meeting_id := some meeting_id }⟩,
     Except.ok insight) := by
  subst hL
  simp only [mergedText, collectSegments_eq_spec] at hA
  simp only [merge_and_summarize_task_v2, collectSegments_eq_spec, hA, hU]
  cases overviewRes <;> rfl

theorem merge_skips_missing_chunks_witness :
    merge_and_summarize_task_v2 "c1" "m1" 5 0
      (fun i => if i = 2 then none
        else some ⟨some [⟨some (toString i), some "S", some ("t" ++ toString i)⟩]⟩)
      false (Except.error "unused") (Except.error "unused2")
      (Except.ok ()) (Except.ok ()) (Except.ok ())
      (Except.ok (defaultClientMemory "c1")) (Except.error "overview oracle down") =
    (⟨some (MeetingAgent.empty_insight "m1"),
      some (mergedSegmentsSpec
        (fun i => if i = 2 then none
          else some ⟨some [⟨some (toString i), some "S", some ("t" ++ toString i)⟩]⟩) 5),
      none⟩,
     ⟨some { meeting_id := "m1", client_id := "c1", timestamp := 0,
             audio_chunks_ref := audioChunksRef 5,
             transcript := String.intercalate "\n"
               ((mergedSegmentsSpec
                 (fun i => if i = 2 then none
                   else some ⟨some [⟨some (toString i), some "S",
                     some ("t" ++ toString i)⟩]⟩) 5).map formatSegment),
             speaker_map := [] },
       some (MeetingAgent.empty_insight "m1"),
       some { defaultClientMemory "c1" with
                last_updated_from_meeting_id := some "m1" }⟩,
     Except.ok (MeetingAgent.empty_insight "m1")) :=
  merge_skips_missing_chunks "c1" "m1" 5 0
    (fun i => if i = 2 then none
      else some ⟨some [⟨some (toString i), some "S", some ("t" ++ toString i)⟩]⟩)
    false (Except.error "unused") (Except.error "unused2")
    (Except.ok (defaultClientMemory "c1")) (Except.error "overview oracle down")
    (MeetingAgent.empty_insight "m1") (defaultClientMemory "c1")
    (defaultClientMemory "c1") rfl rfl rfl

/-- The error key written by a merge run is exactly the error the run
raised (and nothing is written on success). -/
theorem merge_errorKey_char
    (client_id meeting_id : String) (total_chunks now : Nat)
    (chunks : Nat → Option ChunkTranscript) (hasClient : Bool)
    (insightOracle : Except String InsightData)
    (memoryOracle : Except String MemoryData)
    (saveEventRes saveInsightRes saveMemoryRes : Except String Unit)
    (loadMemoryRes : Except String ClientMemory)
    (overviewRes : Except String String) :
    (merge_and_summarize_task_v2 client_id meeting_id total_chunks now chunks
      hasClient insightOracle memoryOracle saveEventRes saveInsightRes
      saveMemoryRes loadMemoryRes overviewRes).1.errorKey =
    (match (merge_and_summarize_task_v2 client_id meeting_id total_chunks now
      chunks hasClient insightOracle memoryOracle saveEventRes saveInsightRes
      saveMemoryRes loadMemoryRes overviewRes).2.2 with
      | Except.error e => some e
      | Except.ok _ => none) := by
  simp only [merge_and_summarize_task_v2]
  rcases saveEventRes with e1 | u1
  · rfl
  dsimp only
  rcases MeetingAgent.analyze hasClient insightOracle
      (String.intercalate "\n"
        (List.map formatSegment (collectSegments chunks total_chunks)))
      meeting_id with eA | insight
  · rfl
  dsimp only
  rcases saveInsightRes with e2 | u2
  · rfl
  dsimp only
  rcases loadMemoryRes with e3 | mem
  · rfl
  dsimp only
  rcases MemoryAgent.update_memory hasClient mem insight memoryOracle
      with e4 | upd
  · rfl
  dsimp only
  rcases saveMemoryRes with e5 | u5
  · rfl
  dsimp only
  rcases overviewRes with e6 | o6 <;> rfl

/-- C6: whenever the merge stage fails — at the event write, the
session-level analysis, the memory load, the reduce step, or the memory
persist — the failure reason is published as a string under the
session's error key before the exception is re-raised to the caller. -/
theorem merge_failure_publishes_error
    (client_id meeting_id : String) (total_chunks now : Nat)
    (chunks : Nat → Option ChunkTranscript) (hasClient : Bool)
    (insightOracle : Except String InsightData)
    (memoryOracle : Except String MemoryData)
    (saveEventRes saveInsightRes saveMemoryRes : Except String Unit)
    (loadMemoryRes : Except String ClientMemory)
    (overviewRes : Except String String) (e : String)
    (h : (merge_and_summarize_task_v2 client_id meeting_id total_chunks now
      chunks hasClient insightOracle memoryOracle saveEventRes saveInsightRes
      saveMemoryRes loadMemoryRes overviewRes).2.2 = Except.error e) :
    (merge_and_summarize_task_v2 client_id meeting_id total_chunks now chunks
      hasClient insightOracle memoryOracle saveEventRes saveInsightRes
      saveMemoryRes loadMemoryRes overviewRes).1.errorKey = some e := by
  rw [merge_errorKey_char client_id meeting_id total_chunks now chunks
    hasClient insightOracle memoryOracle saveEventRes saveInsightRes
    saveMemoryRes loadMemoryRes overviewRes, h]

theorem merge_failure_publishes_error_witness :
    (merge_and_summarize_task_v2 "c1" "m1" 0 0 (fun _ => none) false
      (Except.error "x") (Except.error "y") (Except.error "disk full")
      (Except.ok ()) (Except.ok ()) (Except.ok (defaultClientMemory "c1"))
      (Except.ok "")).1.errorKey = some "disk full" :=
  merge_failure_publishes_error "c1" "m1" 0 0 (fun _ => none) false
    (Except.error "x") (Except.error "y") (Except.error "disk full")
    (Except.ok ()) (Except.ok ()) (Except.ok (defaultClientMemory "c1"))
    (Except.ok "") "disk full" rfl

/-- C10: a failure inside the client-overview generation block is
swallowed: the merge still returns the Insight, no error is published,
the Insight is written to the session's result key, and the Memory
persisted by the reducer step remains the persisted Memory. -/
theorem overview_failure_does_not_fail_merge
    (client_id meeting_id : String) (total_chunks now : Nat)
    (chunks : Nat → Option ChunkTranscript) (hasClient : Bool)
    (insightOracle : Except String InsightData)
    (memoryOracle : Except String MemoryData)
    (loadMemoryRes : Except String ClientMemory) (overview_err : String)
    (insight : MeetingInsight) (current_memory updated0 : ClientMemory)
    (hA : MeetingAgent.analyze hasClient insightOracle
      (mergedText chunks total_chunks) meeting_id = Except.ok insight)
    (hL : loadMemoryRes = Except.ok current_memory)
    (hU : MemoryAgent.update_memory hasClient current_memory insight
      memoryOracle = Except.ok updated0) :
    ((merge_and_summarize_task_v2 client_id meeting_id total_chunks now chunks
        hasClient insightOracle memoryOracle (Except.ok ()) (Except.ok ())
        (Except.ok ()) loadMemoryRes (Except.error overview_err)).2.2 =
      Except.ok insight) ∧
    ((merge_and_summarize_task_v2 client_id meeting_id total_chunks now chunks
        hasClient insightOracle memoryOracle (Except.ok ()) (Except.ok ())
        (Except.ok ()) loadMemoryRes (Except.error overview_err)).1.errorKey =
      none) ∧
    ((merge_and_summarize_task_v2 client_id meeting_id total_chunks now chunks
        hasClient insightOracle memoryOracle (Except.ok ()) (Except.ok ())
        (Except.ok ()) loadMemoryRes (Except.error overview_err)).1.resultKey =
      some insight) ∧
    ((merge_and_summarize_task_v2 client_id meeting_id total_chunks now chunks
        hasClient insightOracle memoryOracle (Except.ok ()) (Except.ok ())
        (Except.ok ()) loadMemoryRes (Except.error overview_err)).2.1.clientMemoryFile =
      some { updated0 with last_updated_from_meeting_id := some meeting_id }) := by
  subst hL
  simp only [mergedText, collectSegments_eq_spec] at hA
  simp only [merge_and_summarize_task_v2, collectSegments_eq_spec, hA, hU]
  exact ⟨trivial, trivial, trivial, trivial⟩

theorem overview_failure_does_not_fail_merge_witness :
    ((merge_and_summarize_task_v2 "c2" "m2" 1 0
        (fun _ => some ⟨some [⟨some "00", some "A", some "hi"⟩]⟩) false
        (Except.error "u1") (Except.error "u2") (Except.ok ()) (Except.ok ())
        (Except.ok ()) (Except.ok (defaultClientMemory "c2"))
        (Except.error "overview boom")).2.2 =
      Except.ok (MeetingAgent.empty_insight "m2")) ∧
    ((merge_and_summarize_task_v2 "c2" "m2" 1 0
        (fun _ => some ⟨some [⟨some "00", some "A", some "hi"⟩]⟩) false
        (Except.error "u1") (Except.error "u2") (Except.ok ()) (Except.ok ())
        (Except.ok ()) (Except.ok (defaultClientMemory "c2"))
        (Except.error "overview boom")).1.errorKey = none) ∧
    ((merge_and_summarize_task_v2 "c2" "m2" 1 0
        (fun _ => some ⟨some [⟨some "00", some "A", some "hi"⟩]⟩) false
        (Except.error "u1") (Except.error "u2") (Except.ok ()) (Except.ok ())
        (Except.ok ()) (Except.ok (defaultClientMemory "c2"))
        (Except.error "overview boom")).1.resultKey =
      some (MeetingAgent.empty_insight "m2")) ∧
    ((merge_and_summarize_task_v2 "c2" "m2" 1 0
        (fun _ => some ⟨some [⟨some "00", some "A", some "hi"⟩]⟩) false
        (Except.error "u1") (Except.error "u2") (Except.ok ()) (Except.ok ())
        (Except.ok ()) (Except.ok (defaultClientMemory "c2"))
        (Except.error "overview boom")).2.1.clientMemoryFile =
      some { defaultClientMemory "c2" with
               last_updated_from_meeting_id := some "m2" }) :=
  overview_failure_does_not_fail_merge "c2" "m2" 1 0
    (fun _ => some ⟨some [⟨some "00", some "A", some "hi"⟩]⟩) false
    (Except.error "u1") (Except.error "u2")
    (Except.ok (defaultClientMemory "c2")) "overview boom"
    (MeetingAgent.empty_insight "m2") (defaultClientMemory "c2")
    (defaultClientMemory "c2") rfl rfl rfl

/-- C4 counterexample: with a configured Oracle client and a non-blank
transcript, an Oracle response that omits `confidence_level` (all other
fields present) makes the merge raise a validation error instead of
producing an Insight with confidence defaulted to `low`. -/
theorem oracle_missing_confidence_fails_merge :
    (merge_and_summarize_task_v2 "c1" "m1" 1 0
      (fun _ => some ⟨some [⟨some "00", some "A", some "hello"⟩]⟩) true
      (Except.ok ⟨some "m1", some true, some [], some "", some [], some [],
        some [], some none, none⟩)
      (Except.error "unused")
      (Except.ok ()) (Except.ok ()) (Except.ok ())
      (Except.ok (defaultClientMemory "c1")) (Except.ok "o")).2.2 =
      Except.error "ValidationError: missing field" := by rfl

/-- C4 amended: the Insight is produced with `confidence_level = "low"`
without consulting the Oracle only on the fallback path (blank
transcript or missing client); an Oracle session response that omits the
confidence field fails `MeetingInsight` validation — no field of the
Insight schema carries a default — and the merge raises (publishing the
error per C6) rather than defaulting. -/
theorem insight_low_default_only_on_fallback_path
    (hasClient : Bool) (oracle : Except String InsightData)
    (transcript meeting_id : String) (d : InsightData)
    (hblank : pyStrip transcript = "")
    (hconf : d.confidence_level = none) :
    MeetingAgent.analyze hasClient oracle transcript meeting_id =
      Except.ok (MeetingAgent.empty_insight meeting_id) ∧
    (MeetingAgent.empty_insight meeting_id).confidence_level = "low" ∧
    validateMeetingInsight d = Except.error "ValidationError: missing field" := by
  refine ⟨?_, rfl, ?_⟩
  · unfold MeetingAgent.analyze
    rw [if_pos (Or.inr (Or.inr hblank))]
  · obtain ⟨mid, fin, prods, intent, summary, items, fups, fdate, conf⟩ := d
    change conf = none at hconf
    subst hconf
    cases mid <;> cases fin <;> cases prods <;> cases intent <;>
      cases summary <;> cases items <;> cases fups <;> cases fdate <;> rfl

theorem insight_low_default_only_on_fallback_path_witness :
    MeetingAgent.analyze true (Except.error "down") "" "m9" =
      Except.ok (MeetingAgent.empty_insight "m9") ∧
    (MeetingAgent.empty_insight "m9").confidence_level = "low" ∧
    validateMeetingInsight ⟨some "m9", some false, some [], some "x",
      some [], some [], some [], some none, none⟩ =
      Except.error "ValidationError: missing field" :=
  insight_low_default_only_on_fallback_path true (Except.error "down") "" "m9"
    ⟨some "m9", some false, some [], some "x", some [], some [], some [],
      some none, none⟩ (by decide) rfl

/-- C8 counterexample: the out-of-enum trend value `positive` is stored
as `increasing`, not `stable`: the sanitization maps `positive` and
`negative` to `increasing` and `decreasing` and only everything else to
`stable`. -/
theorem trend_positive_stored_as_increasing :
    MemoryAgent.update_memory true (defaultClientMemory "c1")
      (MeetingAgent.empty_insight "m1")
      (Except.ok ⟨some "c1", none, none, none, none, none, none, none,
        some "positive", none, none, none, none, none, some (some "ov")⟩) =
      Except.ok { client_id := "c1", decision_confidence_trend := "increasing" } ∧
    "positive" ∉ validTrends ∧ ("increasing" : String) ≠ "stable" := by
  exact ⟨rfl, by decide, by decide⟩

/-- C8 amended: the updated Memory stores the sanitized trend; a value
outside the enum falls back to `stable` unless it is one of the two
aliases `positive` (stored as `increasing`) or `negative` (stored as
`decreasing`); an absent trend also falls back to `stable`. -/
theorem trend_outside_enum_falls_back_to_stable
    (current_memory out : ClientMemory) (ins : MeetingInsight)
    (data : MemoryData)
    (hok : MemoryAgent.update_memory true current_memory ins
      (Except.ok data) = Except.ok out) :
    out.decision_confidence_trend = sanitizeTrend data.decision_confidence_trend ∧
    (∀ t : String, t ∉ validTrends → t ≠ "positive" → t ≠ "negative" →
      sanitizeTrend (some t) = "stable") ∧
    sanitizeTrend (some "positive") = "increasing" ∧
    sanitizeTrend (some "negative") = "decreasing" ∧
    sanitizeTrend none = "stable" := by
  refine ⟨?_, ?_, rfl, rfl, rfl⟩
  · unfold MemoryAgent.update_memory at hok
    rw [if_neg (by decide : ¬ (true = false))] at hok
    dsimp only at hok
    rcases hov : data.client_overview with _ | ov
    · rw [hov] at hok
      simp at hok
    · rcases ov with _ | o
      · rw [hov] at hok
        simp at hok
      · rw [hov] at hok
        rcases hcid : data.client_id with _ | cid
        · rw [hcid] at hok
          simp at hok
        · rw [hcid] at hok
          simp only [Except.ok.injEq] at hok
          subst hok
          rfl
  · intro t h1 h2 h3
    simp [sanitizeTrend, h1, h2, h3]

theorem trend_outside_enum_falls_back_to_stable_witness :
    ({ client_id := "c9" } : ClientMemory).decision_confidence_trend =
      sanitizeTrend (some "weird") ∧
    (∀ t : String, t ∉ validTrends → t ≠ "positive" → t ≠ "negative" →
      sanitizeTrend (some t) = "stable") ∧
    sanitizeTrend (some "positive") = "increasing" ∧
    sanitizeTrend (some "negative") = "decreasing" ∧
    sanitizeTrend none = "stable" :=
  trend_outside_enum_falls_back_to_stable (defaultClientMemory "c9")
    { client_id := "c9" } (MeetingAgent.empty_insight "m9")
    ⟨some "c9", none, none, none, none, none, none, none, some "weird",
      none, none, none, none, none, some (some "o")⟩ rfl

/-- C9 counterexample: two reducer invocations with identical Memory and
identical Insight but different Oracle responses return different
updated Memories: `update_memory` performs an external Oracle call, so
`(Memory, Insight)` alone do not determine the result. -/
theorem reduce_output_not_determined_by_memory_and_insight :
    MemoryAgent.update_memory true (defaultClientMemory "c1")
      (MeetingAgent.empty_insight "m1")
      (Except.ok ⟨some "c1", none, none, none, none, none, none, none,
        some "increasing", none, none, none, none, none, some (some "ov")⟩) ≠
    MemoryAgent.update_memory true (defaultClientMemory "c1")
      (MeetingAgent.empty_insight "m1")
      (Except.ok ⟨some "c1", none, none, none, none, none, none, none,
        some "decreasing", none, none, none, none, none, some (some "ov")⟩) := by
  decide

theorem sanitizeTrend_mem (t : Option String) : sanitizeTrend t ∈ validTrends := by
  rcases t with _ | s
  · decide
  · simp only [sanitizeTrend]
    split_ifs with h1 h2 h3
    · exact h1
    · decide
    · decide
    · decide

theorem sanitizeEngagement_mem (e : Option String) :
    sanitizeEngagement e ∈ validEngagement := by
  rcases e with _ | s
  · decide
  · simp only [sanitizeEngagement]
    split_ifs with h1
    · exact h1
    · decide

theorem sanitizeMemoryConfidence_mem (c : Option String) :
    sanitizeMemoryConfidence c ∈ validConfidence := by
  rcases c with _ | s
  · decide
  · simp only [sanitizeMemoryConfidence]
    split_ifs with h1
    · exact h1
    · decide

/-- C9 amended: the reducer is deterministic only relative to the Oracle
response: for a fixed response the result does not depend on the Insight
at all (the Insight reaches the Oracle through the prompt only), and any
successfully produced Memory has its three enum fields sanitized into
their domains. -/
theorem reduce_deterministic_given_oracle_response
    (m : ClientMemory) (i1 i2 : MeetingInsight)
    (r : Except String MemoryData) (out : ClientMemory)
    (hok : MemoryAgent.update_memory true m i1 r = Except.ok out) :
    MemoryAgent.update_memory true m i1 r =
      MemoryAgent.update_memory true m i2 r ∧
    out.decision_confidence_trend ∈ validTrends ∧
    out.engagement_level ∈ validEngagement ∧
    out.memory_confidence ∈ validConfidence := by
  refine ⟨rfl, ?_⟩
  unfold MemoryAgent.update_memory at hok
  rw [if_neg (by decide : ¬ (true = false))] at hok
  rcases r with e | data
  · simp at hok
  · dsimp only at hok
    rcases hov : data.client_overview with _ | ov
    · rw [hov] at hok
      simp at hok
    · rcases ov with _ | o
      · rw [hov] at hok
        simp at hok
      · rw [hov] at hok
        rcases hcid : data.client_id with _ | cid
        · rw [hcid] at hok
          simp at hok
        · rw [hcid] at hok
          simp only [Except.ok.injEq] at hok
          subst hok
          exact ⟨sanitizeTrend_mem _, sanitizeEngagement_mem _,
            sanitizeMemoryConfidence_mem _⟩

theorem reduce_deterministic_given_oracle_response_witness :
    (MemoryAgent.update_memory true (defaultClientMemory "c3")
      (MeetingAgent.empty_insight "mA")
      (Except.ok ⟨some "c3", none, none, none, none, none, none, none,
        some "increasing", none, none, none, none, none, some (some "z")⟩) =
     MemoryAgent.update_memory true (defaultClientMemory "c3")
      (MeetingAgent.empty_insight "mB")
      (Except.ok ⟨some "c3", none, none, none, none, none, none, none,
        some "increasing", none, none, none, none, none, some (some "z")⟩)) ∧
    ({ client_id := "c3", decision_confidence_trend := "increasing" } :
      ClientMemory).decision_confidence_trend ∈ validTrends ∧
    ({ client_id := "c3", decision_confidence_trend := "increasing" } :
      ClientMemory).engagement_level ∈ validEngagement ∧
    ({ client_id := "c3", decision_confidence_trend := "increasing" } :
      ClientMemory).memory_confidence ∈ validConfidence :=
  reduce_deterministic_given_oracle_response (defaultClientMemory "c3")
    (MeetingAgent.empty_insight "mA") (MeetingAgent.empty_insight "mB")
    (Except.ok ⟨some "c3", none, none, none, none, none, none, none,
      some "increasing", none, none, none, none, none, some (some "z")⟩)
    { client_id := "c3", decision_confidence_trend := "increasing" } rfl

end MeetIQ
